import Mathlib

/-!
Verification development for the ImageSearchDLL pixel-search kernel.

The repository ships three C++ variants of the same kernel:

* `src/ImageSearchDLL.cpp` — the baseline variant (single-threaded, scalar only);
* `src/ImageSearchDLL_A.cpp` — the AVX2 variant (thread pool, scalar and AVX2
  comparison paths);
* `src/_XP_/ImageSearchDLL.cpp` — the XP-compatible variant (scalar only,
  `PixelBuffer`/`MatchResult` structs).

Pixels are 32-bit COLORREF values stored row-major, modelled here as `Nat`
(intended below 2^32; every operation the code performs works on the three low
bytes via explicit masks/divisions).  Raw pixel pointers become `List Nat` with
a total read helper.  Machine floats appear only in the scale-parameter
clamping, which performs nothing but comparisons against constants and
constant assignments; it is modelled over `ℚ` (exact values).  External
collaborators (screen capture, image decoding, bitmap resizing) are passed as
explicit function parameters.
-/

set_option maxRecDepth 8000

namespace ImageSearchDLL

/-- Reads a pixel from a raw pixel array (a `COLORREF*` in the source); an
out-of-range read returns 0.  The C code indexes raw pointers unchecked; all
comparisons performed by the callers in this development stay in range. -/
def bufGet (pixels : List Nat) (i : Nat) : Nat := pixels.getD i 0

/-- Models the Windows macro GetRValue: the low byte of a COLORREF. -/
def getR (p : Nat) : Nat := p % 256

/-- Models the Windows macro GetGValue: the second byte of a COLORREF. -/
def getG (p : Nat) : Nat := p / 256 % 256

/-- Models the Windows macro GetBValue: the third byte of a COLORREF. -/
def getB (p : Nat) : Nat := p / 65536 % 256

/-- Absolute difference of two channel values, as computed by
`abs((int)a - (int)b)` on values in 0..255. -/
def absDiff (a b : Nat) : Nat := max a b - min a b

/-- The CLR_NONE sentinel 0xFFFFFFFF, meaning "no transparency". -/
def CLR_NONE : Nat := 0xFFFFFFFF

/-- Models `rgb_to_bgr` (src/ImageSearchDLL.cpp lines 88-90, identical in the
AVX2 variant lines 197-199): swaps the red and blue components of a 32-bit
colour; any bits above the three low bytes are dropped by the masks. -/
def rgb_to_bgr (aRGB : Nat) : Nat :=
  ((aRGB &&& 0xFF0000) >>> 16) ||| (aRGB &&& 0x00FF00) ||| ((aRGB &&& 0x0000FF) <<< 16)

/-- The baseline exported `ImageSearch` (src/ImageSearchDLL.cpp line 625)
converts the transparency key with `rgb_to_bgr` unconditionally, including the
CLR_NONE sentinel. -/
def baselineTransparent (iTransparent : Nat) : Nat := rgb_to_bgr iTransparent

/-- The AVX2-variant exported `ImageSearch` (src/ImageSearchDLL_A.cpp lines
459-461) converts the transparency key only when it differs from the CLR_NONE
sentinel. -/
def avxTransparent (iTransparent : Nat) : Nat :=
  if iTransparent = CLR_NONE then iTransparent else rgb_to_bgr iTransparent

/-- Models `CheckApproxMatch` (src/ImageSearchDLL.cpp lines 467-492): for every
source pixel in row-major order, skip it when it equals the transparency key
bit-for-bit, otherwise fail when any of the three colour channels differs from
the screen pixel by more than the tolerance.  The C double loop with its early
`return false` computes exactly this `all`. -/
def CheckApproxMatch (pScreenBits : List Nat) (screenW : Nat) (pSourceBits : List Nat)
    (sourceW sourceH iX iY : Nat) (iTransparentColor iTolerance : Nat) : Bool :=
  (List.range sourceH).all fun y =>
    (List.range sourceW).all fun x =>
      let sourcePixel := bufGet pSourceBits (y * sourceW + x)
      if sourcePixel = iTransparentColor then true
      else
        let screenPixel := bufGet pScreenBits ((iY + y) * screenW + (iX + x))
        if absDiff (getR sourcePixel) (getR screenPixel) > iTolerance ∨
           absDiff (getG sourcePixel) (getG screenPixel) > iTolerance ∨
           absDiff (getB sourcePixel) (getB screenPixel) > iTolerance then false
        else true

/-- Models `CheckApproxMatch_Scalar` (src/ImageSearchDLL_A.cpp lines 357-372):
the same per-channel tolerance comparison as the baseline `CheckApproxMatch`,
written with row pointers in the source. -/
def CheckApproxMatch_Scalar (pScreenBits : List Nat) (screenW : Nat) (pSourceBits : List Nat)
    (sourceW sourceH iX iY : Nat) (iTransparentColor iTolerance : Nat) : Bool :=
  (List.range sourceH).all fun y =>
    (List.range sourceW).all fun x =>
      let sourcePixel := bufGet pSourceBits (y * sourceW + x)
      if sourcePixel = iTransparentColor then true
      else
        let screenPixel := bufGet pScreenBits ((iY + y) * screenW + (iX + x))
        if absDiff (getR sourcePixel) (getR screenPixel) > iTolerance ∨
           absDiff (getG sourcePixel) (getG screenPixel) > iTolerance ∨
           absDiff (getB sourcePixel) (getB screenPixel) > iTolerance then false
        else true

/-- Models `CheckExactMatch` (src/ImageSearchDLL_A.cpp lines 345-355): every
source pixel either equals the transparency key or equals the screen pixel. -/
def CheckExactMatch (pScreenBits : List Nat) (screenW : Nat) (pSourceBits : List Nat)
    (sourceW sourceH iX iY : Nat) (iTransparentColor : Nat) : Bool :=
  (List.range sourceH).all fun y =>
    (List.range sourceW).all fun x =>
      let sourcePixel := bufGet pSourceBits (y * sourceW + x)
      if sourcePixel = iTransparentColor then true
      else
        let screenPixel := bufGet pScreenBits ((iY + y) * screenW + (iX + x))
        if sourcePixel = screenPixel then true else false

/-- Models the mask `_mm256_and_si256(v, _mm256_set1_epi32(0x00FFFFFF))`
applied per pixel: keep the three low bytes. -/
def maskNoAlpha (p : Nat) : Nat := p % 16777216

/-- Sum of absolute byte differences of two alpha-masked pixels (four bytes
each); the fourth byte is zero on both sides after masking. -/
def sadPair (s p : Nat) : Nat :=
  let sm := maskNoAlpha s
  let pm := maskNoAlpha p
  absDiff (sm % 256) (pm % 256) + absDiff (sm / 256 % 256) (pm / 256 % 256) +
    absDiff (sm / 65536 % 256) (pm / 65536 % 256) +
    absDiff (sm / 16777216 % 256) (pm / 16777216 % 256)

/-- Models `_mm256_sad_epu8` on one 64-bit lane holding the adjacent pixels
(s0, s1) against (p0, p1): the sum of the eight absolute byte differences of
the masked values, deposited in the low 16 bits of the lane. -/
def sadLane (s0 s1 p0 p1 : Nat) : Nat := sadPair s0 p0 + sadPair s1 p1

/-- Mismatch detection for one 64-bit lane of `CheckApproxMatch_AVX2`
(src/ImageSearchDLL_A.cpp lines 388-392).  The SAD result occupies bytes 0-1
of the lane (all other difference bytes are zero); `_mm256_subs_epu8` of the
byte-broadcast tolerance is zero exactly on bytes whose difference value is at
least the tolerance byte; `_mm256_andnot_si256` with the transparency mask
clears the four bytes of each pixel that equals the key.  Nat subtraction is
the saturating subtraction the intrinsic performs. -/
def laneMismatch (s0 s1 p0 p1 trans tolByte : Nat) : Bool :=
  let sad := sadLane s0 s1 p0 p1
  let b0 := sad % 256
  let b1 := sad / 256 % 256
  (if s0 = trans then false
   else if tolByte - b0 = 0 ∨ tolByte - b1 = 0 ∨ tolByte = 0 then true else false) ||
  (if s1 = trans then false else if tolByte = 0 then true else false)

/-- Models `CheckApproxMatch_AVX2` (src/ImageSearchDLL_A.cpp lines 374-403):
per row, full 8-pixel blocks are processed with the vector path (skipping a
block whose eight source pixels all equal the transparency key, otherwise
testing the four 64-bit lanes), and the remaining pixels use the scalar
per-channel test.  The tolerance byte is the `char` cast of the tolerance. -/
def CheckApproxMatch_AVX2 (pScreenBits : List Nat) (screenW : Nat) (pSourceBits : List Nat)
    (sourceW sourceH iX iY : Nat) (iTransparentColor iTolerance : Nat) : Bool :=
  let tolByte := iTolerance % 256
  (List.range sourceH).all fun y =>
    ((List.range (sourceW / 8)).all fun blk =>
      let s := fun k => bufGet pSourceBits (y * sourceW + (8 * blk + k))
      let p := fun k => bufGet pScreenBits ((iY + y) * screenW + iX + (8 * blk + k))
      if (List.range 8).all (fun k => s k == iTransparentColor) then true
      else if (List.range 4).any (fun lane =>
          laneMismatch (s (2 * lane)) (s (2 * lane + 1)) (p (2 * lane)) (p (2 * lane + 1))
            iTransparentColor tolByte) then false
      else true) &&
    ((List.range (sourceW % 8)).all fun i =>
      let x := sourceW / 8 * 8 + i
      let sp := bufGet pSourceBits (y * sourceW + x)
      if sp = iTransparentColor then true
      else
        let scp := bufGet pScreenBits ((iY + y) * screenW + (iX + x))
        if absDiff (getR sp) (getR scp) > iTolerance ∨
           absDiff (getG sp) (getG scp) > iTolerance ∨
           absDiff (getB sp) (getB scp) > iTolerance then false
        else true)

/-- PixelBuffer from the XP variant (src/_XP_/ImageSearchDLL.cpp lines
119-125): raw 32-bit pixel data with dimensions. -/
structure PixelBuffer where
  pixels : List Nat
  width : Nat
  height : Nat
  deriving DecidableEq

/-- MatchResult from the XP variant (src/_XP_/ImageSearchDLL.cpp lines
131-136): one found match.  The AVX2 variant formats the same four numbers as
the string "x|y|w|h" and parses them back in its aggregation loop; the tuple
is kept here. -/
structure MatchResult where
  x : Nat
  y : Nat
  w : Nat
  h : Nat
  deriving DecidableEq

/-- ScreenCapture from the AVX2 variant (src/ImageSearchDLL_A.cpp lines
164-169). -/
structure ScreenCapture where
  pixels : List Nat
  width : Nat
  height : Nat
  error_code : Int
  deriving DecidableEq

/-- ImageToSearch from the AVX2 variant (src/ImageSearchDLL_A.cpp lines
171-175). -/
structure ImageToSearch where
  pixels : List Nat
  width : Nat
  height : Nat
  deriving DecidableEq

/-- One row of scan offsets: the inner `for (x = 0; x <= maxX; ++x)` loop. -/
def rowOffsets (y maxX : Nat) : List (Nat × Nat) :=
  (List.range (maxX + 1)).map fun x => (y, x)

/-- All scan offsets in the order the nested loops of the scanners visit them:
y from 0 to maxY (outer), x from 0 to maxX (inner). -/
def rowMajorOffsets (maxX : Nat) : Nat → List (Nat × Nat)
  | 0 => rowOffsets 0 maxX
  | n + 1 => rowMajorOffsets maxX n ++ rowOffsets (n + 1) maxX

/-- The body shared by `SearchForBitmap` (XP variant lines 364-373) and
`SearchForBitmapInCapture` (AVX2 variant lines 418-439): walk the offsets in
order; on a hit, append a match, and when only one match is requested return
immediately — at that point the accumulated list holds exactly the hit just
appended, since any earlier hit would already have returned. -/
def scanLoop (check : Nat → Nat → Bool) (mk : Nat → Nat → MatchResult) (find_all : Bool) :
    List (Nat × Nat) → List MatchResult
  | [] => []
  | (y, x) :: rest =>
    if check y x then
      if find_all then mk y x :: scanLoop check mk find_all rest else [mk y x]
    else scanLoop check mk find_all rest

namespace XP

/-- Models `CheckApproxMatch` of the XP variant (src/_XP_/ImageSearchDLL.cpp
lines 317-339), identical in substance to the baseline comparator but over
`PixelBuffer` values. -/
def CheckApproxMatch (screen source : PixelBuffer) (start_x start_y : Nat)
    (transparent_color tolerance : Nat) : Bool :=
  (List.range source.height).all fun y =>
    (List.range source.width).all fun x =>
      let source_pixel := bufGet source.pixels (y * source.width + x)
      if source_pixel = transparent_color then true
      else
        let screen_pixel := bufGet screen.pixels ((start_y + y) * screen.width + (start_x + x))
        if absDiff (getR source_pixel) (getR screen_pixel) > tolerance ∨
           absDiff (getG source_pixel) (getG screen_pixel) > tolerance ∨
           absDiff (getB source_pixel) (getB screen_pixel) > tolerance then false
        else true

/-- Models `SearchForBitmap` (src/_XP_/ImageSearchDLL.cpp lines 350-375):
empty when the source exceeds the screen in either dimension, otherwise the
row-major scan with early exit when `find_all` is false. -/
def SearchForBitmap (screen_buffer source_buffer : PixelBuffer)
    (search_left search_top tolerance transparent_color : Nat) (find_all : Bool) :
    List MatchResult :=
  if source_buffer.width > screen_buffer.width ∨ source_buffer.height > screen_buffer.height
  then []
  else
    scanLoop
      (fun y x => CheckApproxMatch screen_buffer source_buffer x y transparent_color tolerance)
      (fun y x => ⟨search_left + x, search_top + y, source_buffer.width, source_buffer.height⟩)
      find_all
      (rowMajorOffsets (screen_buffer.width - source_buffer.width)
        (screen_buffer.height - source_buffer.height))

end XP

/-- Models `SearchForBitmapInCapture` (src/ImageSearchDLL_A.cpp lines
409-440): empty when the image exceeds the capture in either dimension,
otherwise the row-major scan choosing the comparator as the source does
(exact when tolerance is 0, else AVX2 when supported, else scalar).  The
runtime AVX2 capability probe result is the `avx2` parameter. -/
def SearchForBitmapInCapture (avx2 : Bool) (screen_capture : ScreenCapture)
    (image_to_search : ImageToSearch) (iLeft iTop iTolerance iTransparent : Nat)
    (iFindAllOccurrences : Bool) : List MatchResult :=
  if image_to_search.width > screen_capture.width ∨
     image_to_search.height > screen_capture.height then []
  else
    scanLoop
      (fun y x =>
        if iTolerance = 0 then
          CheckExactMatch screen_capture.pixels screen_capture.width image_to_search.pixels
            image_to_search.width image_to_search.height x y iTransparent
        else if avx2 then
          CheckApproxMatch_AVX2 screen_capture.pixels screen_capture.width
            image_to_search.pixels image_to_search.width image_to_search.height x y
            iTransparent iTolerance
        else
          CheckApproxMatch_Scalar screen_capture.pixels screen_capture.width
            image_to_search.pixels image_to_search.width image_to_search.height x y
            iTransparent iTolerance)
      (fun y x => ⟨iLeft + x, iTop + y, image_to_search.width, image_to_search.height⟩)
      iFindAllOccurrences
      (rowMajorOffsets (screen_capture.width - image_to_search.width)
        (screen_capture.height - image_to_search.height))

/-- One formatted match entry of the AVX2 aggregation loop
(src/ImageSearchDLL_A.cpp lines 553-557): optional centering with truncating
division, then "x|y|w|h". -/
def formatMatch (iCenterPOS : Bool) (m : MatchResult) : String :=
  let x := if iCenterPOS then m.x + m.w / 2 else m.x
  let y := if iCenterPOS then m.y + m.h / 2 else m.y
  toString x ++ "|" ++ toString y ++ "|" ++ toString m.w ++ "|" ++ toString m.h

/-- Models the result formatting of the AVX2 variant (src/ImageSearchDLL_A.cpp
lines 545-565): when matches exist, keep at most `iMultiResults` of them (0
means unlimited) and emit "N[entries]" with N in braces; otherwise emit the
no-match string. -/
def formatAnswer (iMultiResults : Nat) (iCenterPOS : Bool)
    (all_matches : List MatchResult) : String :=
  if all_matches.length > 0 then
    let kept := if iMultiResults > 0 then all_matches.take iMultiResults else all_matches
    "\x7b" ++ toString kept.length ++ "\x7d[" ++
      String.intercalate "," (kept.map (formatMatch iCenterPOS)) ++ "]"
  else "\x7b0\x7d[No Match Found]"

/-- Lexicographic order on (y, x) offsets, the order in which the scanners
visit them. -/
def lexLe (a b : Nat × Nat) : Prop := a.1 < b.1 ∨ (a.1 = b.1 ∧ a.2 ≤ b.2)

/-- Models the per-reference-image scale sweep of the XP variant
(src/_XP_/ImageSearchDLL.cpp lines 465-489) over the list of scale values the
float loop visits.  `searchAt s` abstracts the external resize collaborator,
pixel extraction and the scan at scale `s`; a skipped scale (zero-dimension
resize or failed pixel extraction, the `continue` cases) contributes the empty
list.  Matches of a scale are appended to the sweep result, and when
`find_all` is false the sweep breaks at the first scale with matches. -/
def scaleLoop {α : Type} (searchAt : α → List MatchResult) (find_all : Bool) :
    List α → List MatchResult
  | [] => []
  | s :: rest =>
    let found := searchAt s
    if found = [] then scaleLoop searchAt find_all rest
    else if find_all then found ++ scaleLoop searchAt find_all rest
    else found

/-- Models one worker task of the AVX2 variant (src/ImageSearchDLL_A.cpp lines
498-532): load the reference image via the external collaborator `load`; on
failure return the empty list; otherwise run the per-image scale sweep,
abstracted as `sweep`. -/
def searchTask (load : String → Option PixelBuffer) (sweep : PixelBuffer → List MatchResult)
    (file_path : String) : List MatchResult :=
  match load file_path with
  | none => []
  | some bmp => sweep bmp

/-- Models the dispatcher of the AVX2 variant (src/ImageSearchDLL_A.cpp lines
490-543): one task is enqueued per nonempty path token, and the futures are
collected in submission order and concatenated (the source skips appending
empty results, which concatenation also does). -/
def dispatchAll (load : String → Option PixelBuffer) (sweep : PixelBuffer → List MatchResult)
    (file_paths : List String) : List MatchResult :=
  ((file_paths.filter fun q => !(q == "")).map (searchTask load sweep)).flatten

/-- Models the multi-file loop of the baseline `ImageSearch`
(src/ImageSearchDLL.cpp lines 652-753) around image loading: empty tokens are
skipped; a failed `LoadPicture` returns error code -2 for the whole request
(lines 671-675); otherwise the per-file scale sweep — abstracted as
`fileSweep`; its own per-scale capture errors are outside this model —
appends its matches, and the loop stops early once `iMultiResults` (when
positive) matches are accumulated (lines 750-752). -/
def baselineFileLoop (load : String → Option PixelBuffer)
    (fileSweep : PixelBuffer → List MatchResult) (iMultiResults : Nat)
    (acc : List MatchResult) : List String → Except Int (List MatchResult)
  | [] => .ok acc
  | token :: rest =>
    if token = "" then baselineFileLoop load fileSweep iMultiResults acc rest
    else
      match load token with
      | none => .error (-2)
      | some bmp =>
        let acc2 := acc ++ fileSweep bmp
        if 0 < iMultiResults ∧ iMultiResults ≤ acc2.length then .ok acc2
        else baselineFileLoop load fileSweep iMultiResults acc2 rest

namespace XP

/-- Models the multi-file loop of the XP `ImageSearch`
(src/_XP_/ImageSearchDLL.cpp lines 457-496): per path, a failed load skips the
file (`continue`); otherwise the scale sweep result is appended to the global
accumulator, and when `iFindAllOccurrences` is false the file loop stops as
soon as the accumulator is nonempty (lines 494-495).  `searchAt bmp s`
abstracts resizing `bmp` to scale `s`, pixel extraction and
`SearchForBitmap`. -/
def fileLoop (load : String → Option PixelBuffer)
    (searchAt : PixelBuffer → ℚ → List MatchResult) (scales : List ℚ) (find_all : Bool)
    (all_matches : List MatchResult) : List String → List MatchResult
  | [] => all_matches
  | file_path :: rest =>
    if file_path = "" then fileLoop load searchAt scales find_all all_matches rest
    else
      match load file_path with
      | none => fileLoop load searchAt scales find_all all_matches rest
      | some bmp =>
        let acc2 := all_matches ++ scaleLoop (searchAt bmp) find_all scales
        if find_all = false ∧ ¬ acc2 = [] then acc2
        else fileLoop load searchAt scales find_all acc2 rest

/-- Models the Clamp helper of the XP variant (src/_XP_/ImageSearchDLL.cpp
lines 153-158). -/
def Clamp (value min_val max_val : Int) : Int :=
  if value < min_val then min_val
  else if value > max_val then max_val
  else value

/-- Models the scale-parameter normalization of the XP variant
(src/_XP_/ImageSearchDLL.cpp lines 416-418): `Max(0.1f, fMinScale)`, then
`Max(fMinScale, fMaxScale)` against the updated minimum, then
`Max(0.01f, fScaleStep)`.  Only comparisons and constant loads happen on the
floats, so the logic is modelled exactly over `ℚ`. -/
def clampScaleParams (fMinScale fMaxScale fScaleStep : ℚ) : ℚ × ℚ × ℚ :=
  let mn := max (1 / 10) fMinScale
  let mx := max mn fMaxScale
  let st := max (1 / 100) fScaleStep
  (mn, mx, st)

end XP

/-- Models the tolerance clamp of the baseline and AVX2 variants
(src/ImageSearchDLL.cpp line 644, src/ImageSearchDLL_A.cpp line 479):
`max(0, min(255, iTolerance))`. -/
def clampTolerance (iTolerance : Int) : Int := max 0 (min 255 iTolerance)

/-- Models the scale-parameter normalization shared by the baseline and AVX2
variants (src/ImageSearchDLL.cpp lines 645-647, src/ImageSearchDLL_A.cpp lines
480-482): the minimum scale is replaced by 0.1 only when nonpositive, the
maximum is raised to the minimum, and the step is replaced by 0.1 only when
nonpositive. -/
def clampScaleParams (fMinScale fMaxScale fScaleStep : ℚ) : ℚ × ℚ × ℚ :=
  let mn := if fMinScale ≤ 0 then 1 / 10 else fMinScale
  let mx := if fMaxScale < mn then mn else fMaxScale
  let st := if fScaleStep ≤ 0 then 1 / 10 else fScaleStep
  (mn, mx, st)

/-- Models `GetErrorMessage` (identical tables in src/ImageSearchDLL.cpp lines
113-127 and src/ImageSearchDLL_A.cpp lines 201-215). -/
def GetErrorMessage (iErrorCode : Int) : String :=
  if iErrorCode = -1 then "Invalid path or image format"
  else if iErrorCode = -2 then "Failed to load image from file"
  else if iErrorCode = -3 then "Failed to get screen device context"
  else if iErrorCode = -4 then "Failed to create a compatible device context"
  else if iErrorCode = -5 then "Failed to create a compatible bitmap"
  else if iErrorCode = -6 then "Failed to select bitmap into device context"
  else if iErrorCode = -7 then "BitBlt (screen capture) failed"
  else if iErrorCode = -8 then "Failed to get bitmap bits (pixel data)"
  else if iErrorCode = -9 then "Invalid search region specified"
  else if iErrorCode = -10 then "Scaling produced an invalid bitmap size"
  else "Unknown error"

/-- Models the entry of the AVX2 `ImageSearch` (src/ImageSearchDLL_A.cpp lines
469-478) up to the search-region validation: the rectangle is clamped to the
screen (nonpositive or oversized right/bottom mean the full extent) and a
degenerate rectangle returns the error string for code -9 before anything
else runs.  `rest` is the remainder of the function, beginning with the
`CaptureScreenRegion` call, applied to the clamped rectangle; the XP variant
(lines 420-431) performs the same normalization and check before its
capture. -/
def ImageSearchEntry (screenWidth screenHeight iLeft iTop iRight iBottom : Int)
    (rest : Int → Int → Int → Int → String) : String :=
  if max 0 iLeft ≥ (if iRight ≤ 0 ∨ iRight > screenWidth then screenWidth else iRight) ∨
     max 0 iTop ≥ (if iBottom ≤ 0 ∨ iBottom > screenHeight then screenHeight else iBottom) then
    "\x7b-9\x7d[" ++ GetErrorMessage (-9) ++ "]"
  else
    rest (max 0 iLeft) (max 0 iTop)
      (if iRight ≤ 0 ∨ iRight > screenWidth then screenWidth else iRight)
      (if iBottom ≤ 0 ∨ iBottom > screenHeight then screenHeight else iBottom)

end ImageSearchDLL

namespace ImageSearchDLL

/-- The per-pixel body of the scalar comparators, restated as a disjunction. -/
lemma checkPixel_iff (sp scp trans tol : Nat) :
    (if sp = trans then true
     else if absDiff (getR sp) (getR scp) > tol ∨ absDiff (getG sp) (getG scp) > tol ∨
        absDiff (getB sp) (getB scp) > tol then false else true) = true ↔
    (sp = trans ∨ (absDiff (getR sp) (getR scp) ≤ tol ∧ absDiff (getG sp) (getG scp) ≤ tol ∧
        absDiff (getB sp) (getB scp) ≤ tol)) := by
  split_ifs with h1 h2
  · simp [h1]
  · simp [h1]
    omega
  · simp [h1]
    omega

end ImageSearchDLL

open ImageSearchDLL

/-- C2: the scalar comparator (`CheckApproxMatch`, src/ImageSearchDLL.cpp lines
467-492) returns true at an origin if and only if every reference pixel in
row-major order either equals the transparency key exactly — and then matches
regardless of the target pixel — or has each of its three 8-bit colour
channels within the tolerance, inclusive, of the corresponding target pixel
channel by absolute difference. -/
theorem checkApproxMatch_iff_spec (pScreenBits : List Nat) (screenW : Nat)
    (pSourceBits : List Nat) (sourceW sourceH iX iY trans tol : Nat) :
    CheckApproxMatch pScreenBits screenW pSourceBits sourceW sourceH iX iY trans tol = true ↔
    ∀ y, y < sourceH → ∀ x, x < sourceW →
      bufGet pSourceBits (y * sourceW + x) = trans ∨
      (absDiff (getR (bufGet pSourceBits (y * sourceW + x)))
          (getR (bufGet pScreenBits ((iY + y) * screenW + (iX + x)))) ≤ tol ∧
       absDiff (getG (bufGet pSourceBits (y * sourceW + x)))
          (getG (bufGet pScreenBits ((iY + y) * screenW + (iX + x)))) ≤ tol ∧
       absDiff (getB (bufGet pSourceBits (y * sourceW + x)))
          (getB (bufGet pScreenBits ((iY + y) * screenW + (iX + x)))) ≤ tol) := by
  simp only [CheckApproxMatch, List.all_eq_true, List.mem_range]
  constructor
  · intro h y hy x hx
    exact (checkPixel_iff _ _ _ _).mp (h y hy x hx)
  · intro h y hy x hx
    exact (checkPixel_iff _ _ _ _).mpr (h y hy x hx)

/-- C1: at this concrete input (an 8-pixel row whose every reference pixel
differs from the target by 5 in each of the three channels, tolerance 10,
transparency key CLR_NONE) the scalar comparator accepts — every channel
difference 5 is within tolerance — but the AVX2 comparator rejects, because
its `_mm256_sad_epu8` step sums the six channel differences of each pixel
pair (5·6 = 30) and flags a mismatch when that sum reaches the tolerance.
The two strategies therefore disagree on the same input. -/
theorem checkApprox_scalar_avx2_divergence :
    CheckApproxMatch_Scalar [0, 0, 0, 0, 0, 0, 0, 0] 8
      [0x050505, 0x050505, 0x050505, 0x050505, 0x050505, 0x050505, 0x050505, 0x050505]
      8 1 0 0 0xFFFFFFFF 10 = true ∧
    CheckApproxMatch_AVX2 [0, 0, 0, 0, 0, 0, 0, 0] 8
      [0x050505, 0x050505, 0x050505, 0x050505, 0x050505, 0x050505, 0x050505, 0x050505]
      8 1 0 0 0xFFFFFFFF 10 = false := by
  constructor
  · decide
  · decide

namespace ImageSearchDLL

/-- Membership in one scan row. -/
lemma mem_rowOffsets {a b y maxX : Nat} :
    (a, b) ∈ rowOffsets y maxX ↔ a = y ∧ b ≤ maxX := by
  constructor
  · intro h
    rcases List.mem_map.mp h with ⟨x, hx, hEq⟩
    cases hEq
    exact ⟨rfl, Nat.lt_succ_iff.mp (List.mem_range.mp hx)⟩
  · rintro ⟨rfl, hb⟩
    exact List.mem_map.mpr ⟨b, List.mem_range.mpr (Nat.lt_succ_of_le hb), rfl⟩

/-- Membership in the full offset enumeration is exactly in-bounds. -/
lemma mem_rowMajorOffsets {a b maxX maxY : Nat} :
    (a, b) ∈ rowMajorOffsets maxX maxY ↔ a ≤ maxY ∧ b ≤ maxX := by
  induction maxY with
  | zero =>
    rw [rowMajorOffsets, mem_rowOffsets]
    omega
  | succ n ih =>
    rw [rowMajorOffsets, List.mem_append, ih, mem_rowOffsets]
    omega

/-- One scan row is sorted for the lexicographic order. -/
lemma pairwise_rowOffsets (y maxX : Nat) : (rowOffsets y maxX).Pairwise lexLe := by
  rw [rowOffsets, List.pairwise_map]
  exact (List.pairwise_lt_range _).imp fun h => Or.inr ⟨rfl, Nat.le_of_lt h⟩

/-- The full offset enumeration is sorted for the lexicographic order. -/
lemma pairwise_rowMajorOffsets (maxX maxY : Nat) :
    (rowMajorOffsets maxX maxY).Pairwise lexLe := by
  induction maxY with
  | zero => exact pairwise_rowOffsets 0 maxX
  | succ n ih =>
    rw [rowMajorOffsets, List.pairwise_append]
    refine ⟨ih, pairwise_rowOffsets _ _, ?_⟩
    rintro ⟨a, b⟩ ha ⟨c, d⟩ hd
    have h1 := mem_rowMajorOffsets.mp ha
    have h2 := mem_rowOffsets.mp hd
    refine Or.inl ?_
    show a < c
    omega

/-- A satisfying member guarantees that the first hit exists. -/
lemma find?_eq_some_of_mem {α : Type} {p : α → Bool} {l : List α} {b : α}
    (hb : b ∈ l) (hpb : p b = true) : ∃ a, l.find? p = some a := by
  induction l with
  | nil => cases hb
  | cons c rest ih =>
    cases hc : p c with
    | true => exact ⟨c, List.find?_cons_of_pos _ hc⟩
    | false =>
      rcases List.mem_cons.mp hb with rfl | hmem
      · rw [hc] at hpb
        cases hpb
      · rcases ih hmem with ⟨a, ha⟩
        refine ⟨a, ?_⟩
        rw [List.find?_cons_of_neg _ (by simp [hc])]
        exact ha

/-- On a lexicographically sorted list, the first hit of `find?` is the
lexicographic minimum of all hits. -/
lemma find?_min_of_pairwise {l : List (Nat × Nat)} {p : Nat × Nat → Bool}
    (hp : l.Pairwise lexLe) {a : Nat × Nat} (ha : l.find? p = some a) :
    p a = true ∧ a ∈ l ∧ ∀ b ∈ l, p b = true → lexLe a b := by
  induction l with
  | nil => cases ha
  | cons c rest ih =>
    rcases List.pairwise_cons.mp hp with ⟨hc_rest, hrest⟩
    cases hc : p c with
    | true =>
      rw [List.find?_cons_of_pos _ hc] at ha
      injection ha with ha
      subst ha
      refine ⟨hc, List.mem_cons_self _ _, ?_⟩
      rintro b hb -
      rcases List.mem_cons.mp hb with rfl | hmem
      · exact Or.inr ⟨rfl, Nat.le_refl _⟩
      · exact hc_rest b hmem
    | false =>
      rw [List.find?_cons_of_neg _ (by simp [hc])] at ha
      obtain ⟨hpa, hmem, hmin⟩ := ih hrest ha
      refine ⟨hpa, List.mem_cons_of_mem _ hmem, ?_⟩
      intro b hb hpb
      rcases List.mem_cons.mp hb with rfl | hmem2
      · rw [hc] at hpb
        cases hpb
      · exact hmin b hmem2 hpb

/-- With `find_all` false the scan loop returns the singleton for the first
hit of the offset list (or nothing). -/
lemma scanLoop_false_eq_find? (check : Nat → Nat → Bool) (mk : Nat → Nat → MatchResult)
    (l : List (Nat × Nat)) :
    scanLoop check mk false l =
      (match l.find? (fun yx => check yx.1 yx.2) with
       | some yx => [mk yx.1 yx.2]
       | none => []) := by
  induction l with
  | nil => rfl
  | cons c rest ih =>
    obtain ⟨y, x⟩ := c
    cases h : check y x with
    | true =>
      rw [scanLoop, List.find?_cons_of_pos _ (by simpa using h)]
      simp [h]
    | false =>
      rw [scanLoop, List.find?_cons_of_neg _ (by simpa using h)]
      simp [h, ih]

end ImageSearchDLL

/-- C5: the XP scanner `SearchForBitmap` visits offsets row-major (y outer, x
inner); with `find_all` false and at least one matching offset, the returned
single match corresponds to the lexicographically smallest (y, x) among all
matching offsets, translated by the search origin. -/
theorem searchForBitmap_first_match_lexmin (screen_buffer source_buffer : PixelBuffer)
    (search_left search_top tolerance transparent_color : Nat)
    (hw : source_buffer.width ≤ screen_buffer.width)
    (hh : source_buffer.height ≤ screen_buffer.height)
    (y x : Nat) (hy : y ≤ screen_buffer.height - source_buffer.height)
    (hx : x ≤ screen_buffer.width - source_buffer.width)
    (hmatch : XP.CheckApproxMatch screen_buffer source_buffer x y
      transparent_color tolerance = true) :
    ∃ y0 x0,
      XP.CheckApproxMatch screen_buffer source_buffer x0 y0 transparent_color tolerance = true ∧
      y0 ≤ screen_buffer.height - source_buffer.height ∧
      x0 ≤ screen_buffer.width - source_buffer.width ∧
      (∀ y1 x1, y1 ≤ screen_buffer.height - source_buffer.height →
        x1 ≤ screen_buffer.width - source_buffer.width →
        XP.CheckApproxMatch screen_buffer source_buffer x1 y1 transparent_color tolerance = true →
        (y0 < y1 ∨ (y0 = y1 ∧ x0 ≤ x1))) ∧
      XP.SearchForBitmap screen_buffer source_buffer search_left search_top tolerance
          transparent_color false =
        [⟨search_left + x0, search_top + y0, source_buffer.width, source_buffer.height⟩] := by
  classical
  set maxX := screen_buffer.width - source_buffer.width with hmX
  set maxY := screen_buffer.height - source_buffer.height with hmY
  obtain ⟨a, ha⟩ := find?_eq_some_of_mem
    (p := fun yx : Nat × Nat => XP.CheckApproxMatch screen_buffer source_buffer yx.2 yx.1
      transparent_color tolerance)
    (mem_rowMajorOffsets.mpr ⟨hy, hx⟩) hmatch
  obtain ⟨hpa, hmem, hmin⟩ := find?_min_of_pairwise (pairwise_rowMajorOffsets maxX maxY) ha
  obtain ⟨y0, x0⟩ := a
  obtain ⟨hy0, hx0⟩ := mem_rowMajorOffsets.mp hmem
  refine ⟨y0, x0, hpa, hy0, hx0, ?_, ?_⟩
  · intro y1 x1 hy1 hx1 h1
    exact hmin (y1, x1) (mem_rowMajorOffsets.mpr ⟨hy1, hx1⟩) h1
  · rw [XP.SearchForBitmap, if_neg (by omega), scanLoop_false_eq_find?, ha]

/-- Witness for C5 at a concrete input: a 2-wide screen of zeros and a 1-pixel
zero reference match at offsets (0,0) and (0,1); the scan returns the match at
the lexicographically smallest offset (0,0). -/
theorem searchForBitmap_first_match_lexmin_witness :
    ∃ y0 x0,
      XP.CheckApproxMatch ⟨[0, 0], 2, 1⟩ ⟨[0], 1, 1⟩ x0 y0 7 0 = true ∧
      y0 ≤ 0 ∧ x0 ≤ 1 ∧
      (∀ y1 x1, y1 ≤ 0 → x1 ≤ 1 →
        XP.CheckApproxMatch ⟨[0, 0], 2, 1⟩ ⟨[0], 1, 1⟩ x1 y1 7 0 = true →
        (y0 < y1 ∨ (y0 = y1 ∧ x0 ≤ x1))) ∧
      XP.SearchForBitmap ⟨[0, 0], 2, 1⟩ ⟨[0], 1, 1⟩ 3 4 0 7 false =
        [⟨3 + x0, 4 + y0, 1, 1⟩] :=
  searchForBitmap_first_match_lexmin ⟨[0, 0], 2, 1⟩ ⟨[0], 1, 1⟩ 3 4 0 7
    (by decide) (by decide) 0 0 (by decide) (by decide) (by decide)

/-- C7: when the reference image is wider or taller than the captured target,
`SearchForBitmapInCapture` returns the empty match list immediately, and the
formatter turns that empty list into the no-match string rather than an error
string. -/
theorem oversized_reference_empty_no_error (avx2 : Bool) (screen_capture : ScreenCapture)
    (image_to_search : ImageToSearch) (iLeft iTop iTolerance iTransparent : Nat)
    (iFindAll : Bool) (iMultiResults : Nat) (iCenterPOS : Bool)
    (h : image_to_search.width > screen_capture.width ∨
         image_to_search.height > screen_capture.height) :
    SearchForBitmapInCapture avx2 screen_capture image_to_search iLeft iTop iTolerance
        iTransparent iFindAll = [] ∧
    formatAnswer iMultiResults iCenterPOS
        (SearchForBitmapInCapture avx2 screen_capture image_to_search iLeft iTop iTolerance
          iTransparent iFindAll) = "\x7b0\x7d[No Match Found]" := by
  have he : SearchForBitmapInCapture avx2 screen_capture image_to_search iLeft iTop iTolerance
      iTransparent iFindAll = [] := by
    rw [SearchForBitmapInCapture, if_pos h]
  refine ⟨he, ?_⟩
  rw [he]
  rfl

/-- Witness for C7 at a concrete input: a 2-pixel-wide reference against a
1-pixel capture. -/
theorem oversized_reference_empty_no_error_witness :
    SearchForBitmapInCapture false ⟨[0], 1, 1, 0⟩ ⟨[0, 0], 2, 1⟩ 0 0 0 7 false = [] ∧
    formatAnswer 0 false
        (SearchForBitmapInCapture false ⟨[0], 1, 1, 0⟩ ⟨[0, 0], 2, 1⟩ 0 0 0 7 false) =
      "\x7b0\x7d[No Match Found]" :=
  oversized_reference_empty_no_error false ⟨[0], 1, 1, 0⟩ ⟨[0, 0], 2, 1⟩ 0 0 0 7 false 0 false
    (by decide)

namespace ImageSearchDLL

/-- Unfolding of the scale sweep at a cons cell. -/
lemma scaleLoop_cons {α : Type} (searchAt : α → List MatchResult) (find_all : Bool)
    (s : α) (rest : List α) :
    scaleLoop searchAt find_all (s :: rest) =
      (if searchAt s = [] then scaleLoop searchAt find_all rest
       else if find_all then searchAt s ++ scaleLoop searchAt find_all rest
       else searchAt s) := rfl

/-- With `find_all` false, a sweep whose earlier scales are all empty returns
exactly the first nonempty scale result. -/
lemma scaleLoop_false_of_prefix_empty {α : Type} (searchAt : α → List MatchResult)
    (s : α) (post : List α) :
    ∀ pre : List α, (∀ t ∈ pre, searchAt t = []) → ¬ searchAt s = [] →
      scaleLoop searchAt false (pre ++ s :: post) = searchAt s := by
  intro pre
  induction pre with
  | nil =>
    intro _ hs
    rw [List.nil_append, scaleLoop_cons, if_neg hs]
    simp
  | cons a pre2 ih =>
    intro hpre hs
    have ha := hpre a (List.mem_cons_self a pre2)
    rw [List.cons_append, scaleLoop_cons, if_pos ha]
    exact ih (fun t ht => hpre t (List.mem_cons_of_mem a ht)) hs

end ImageSearchDLL

/-- C6: in the scale sweep with `find_all` false, once a scale `s` yields at
least one match (all earlier scales having yielded none), the sweep returns
exactly the matches of `s`; and the result does not depend on what the search
would do at the scales after `s` — those scales are not evaluated. -/
theorem scaleSweep_short_circuit {α : Type} (searchAt searchAt2 : α → List MatchResult)
    (pre post : List α) (s : α)
    (hpre : ∀ t ∈ pre, searchAt t = []) (hs : ¬ searchAt s = [])
    (hpre2 : ∀ t ∈ pre, searchAt2 t = []) (hs2 : searchAt2 s = searchAt s) :
    scaleLoop searchAt false (pre ++ s :: post) = searchAt s ∧
    scaleLoop searchAt2 false (pre ++ s :: post) = searchAt s := by
  refine ⟨scaleLoop_false_of_prefix_empty searchAt s post pre hpre hs, ?_⟩
  have hs3 : ¬ searchAt2 s = [] := by rw [hs2]; exact hs
  exact (scaleLoop_false_of_prefix_empty searchAt2 s post pre hpre2 hs3).trans hs2

/-- Witness for C6 at concrete inputs: scale 0 yields nothing, scale 1 yields
one match, and changing the behaviour at the later scale 2 does not change the
sweep result. -/
theorem scaleSweep_short_circuit_witness :
    scaleLoop (fun s : Nat => if s = 0 then [] else [⟨1, 2, 3, 4⟩]) false
        ([0] ++ 1 :: [2]) = [⟨1, 2, 3, 4⟩] ∧
    scaleLoop (fun s : Nat => if s = 0 then [] else if s = 1 then [⟨1, 2, 3, 4⟩]
        else [⟨9, 9, 9, 9⟩]) false ([0] ++ 1 :: [2]) = [⟨1, 2, 3, 4⟩] :=
  scaleSweep_short_circuit
    (fun s : Nat => if s = 0 then [] else [⟨1, 2, 3, 4⟩])
    (fun s : Nat => if s = 0 then [] else if s = 1 then [⟨1, 2, 3, 4⟩] else [⟨9, 9, 9, 9⟩])
    [0] [2] 1 (by decide) (by decide) (by decide) (by decide)

/-- C3 counterexample: in the baseline variant a failed reference load is
fatal.  At this concrete input the first path fails to load while the second
would be searched successfully, yet the whole request aborts with error code
-2 and the second reference is never searched. -/
theorem baseline_load_failure_fatal :
    baselineFileLoop (fun p => if p = "a" then none else some ⟨[0], 1, 1⟩)
      (fun _ => [⟨1, 1, 1, 1⟩]) 0 [] ["a", "b"] = .error (-2) := by
  rfl

/-- C3 amended (AVX2 variant): a reference whose load fails contributes an
empty match list — the dispatcher result equals that of the same request
without the failing path, so the remaining reference images are still
searched, and the result type carries no error for the failed load. -/
theorem dispatch_skips_failed_load (load : String → Option PixelBuffer)
    (sweep : PixelBuffer → List MatchResult) (pre post : List String) (p : String)
    (hp : load p = none) :
    dispatchAll load sweep (pre ++ p :: post) = dispatchAll load sweep (pre ++ post) := by
  by_cases he : p = ""
  · simp [dispatchAll, List.filter_append, List.filter_cons, he]
  · simp [dispatchAll, List.filter_append, List.filter_cons, searchTask, hp, he]

/-- Witness for C3 at a concrete input: the middle path fails to load and the
request behaves as if it were absent. -/
theorem dispatch_skips_failed_load_witness :
    dispatchAll (fun p => if p = "a" then none else some ⟨[0], 1, 1⟩)
        (fun _ => [⟨1, 1, 1, 1⟩]) (["x"] ++ "a" :: ["b"]) =
      dispatchAll (fun p => if p = "a" then none else some ⟨[0], 1, 1⟩)
        (fun _ => [⟨1, 1, 1, 1⟩]) (["x"] ++ ["b"]) :=
  dispatch_skips_failed_load _ _ ["x"] ["b"] "a" (by decide)

/-- C4 counterexample: with `findAllOccurrences` false and two reference paths
that both load and both match, the XP file loop returns only the match of the
first image: the match of the second image (which its own sweep would
produce, third conjunct) is absent from the result. -/
theorem xp_fileLoop_stops_after_first_match :
    XP.fileLoop (fun p => if p = "a" then some ⟨[0], 1, 1⟩ else some ⟨[1], 1, 1⟩)
        (fun bmp _ => if bmp.pixels = [0] then [⟨5, 5, 1, 1⟩] else [⟨7, 7, 1, 1⟩])
        [1] false [] ["a", "b"] = [⟨5, 5, 1, 1⟩] ∧
    ¬ (⟨7, 7, 1, 1⟩ : MatchResult) ∈
        XP.fileLoop (fun p => if p = "a" then some ⟨[0], 1, 1⟩ else some ⟨[1], 1, 1⟩)
          (fun bmp _ => if bmp.pixels = [0] then [⟨5, 5, 1, 1⟩] else [⟨7, 7, 1, 1⟩])
          [1] false [] ["a", "b"] ∧
    scaleLoop ((fun bmp (_ : ℚ) => if PixelBuffer.pixels bmp = [0] then
        [(⟨5, 5, 1, 1⟩ : MatchResult)] else [⟨7, 7, 1, 1⟩]) ⟨[1], 1, 1⟩) false [1] =
      [⟨7, 7, 1, 1⟩] := by
  refine ⟨by rfl, by decide, by rfl⟩

/-- C4 amended: with `findAllOccurrences` false and several reference paths,
the AVX2 dispatcher still runs one task per nonempty reference path and
concatenates the per-image results in path order; the XP file loop instead
returns the sweep result of the first matching image alone — independent of
the remaining paths, which are not processed. -/
theorem dispatcher_aggregation_per_variant :
    (∀ (load : String → Option PixelBuffer) (sweep : PixelBuffer → List MatchResult)
       (pre post : List String) (p : String), ¬ p = "" →
       dispatchAll load sweep (pre ++ p :: post) =
         dispatchAll load sweep pre ++ searchTask load sweep p ++ dispatchAll load sweep post) ∧
    (∀ (load : String → Option PixelBuffer)
       (searchAt : PixelBuffer → ℚ → List MatchResult) (scales : List ℚ)
       (p : String) (bmp : PixelBuffer) (rest : List String), ¬ p = "" →
       load p = some bmp → ¬ scaleLoop (searchAt bmp) false scales = [] →
       XP.fileLoop load searchAt scales false [] (p :: rest) =
         scaleLoop (searchAt bmp) false scales) := by
  constructor
  · intro load sweep pre post p hp
    simp [dispatchAll, List.filter_append, List.filter_cons, hp]
  · intro load searchAt scales p bmp rest hp hload hne
    rw [XP.fileLoop, if_neg hp, hload]
    simp [hne]

/-- Witness for C4 at concrete inputs. -/
theorem dispatcher_aggregation_per_variant_witness :
    dispatchAll (fun _ => some ⟨[0], 1, 1⟩) (fun _ => [⟨1, 2, 3, 4⟩])
        (["x"] ++ "y" :: ["z"]) =
      dispatchAll (fun _ => some ⟨[0], 1, 1⟩) (fun _ => [⟨1, 2, 3, 4⟩]) ["x"] ++
        searchTask (fun _ => some ⟨[0], 1, 1⟩) (fun _ => [⟨1, 2, 3, 4⟩]) "y" ++
        dispatchAll (fun _ => some ⟨[0], 1, 1⟩) (fun _ => [⟨1, 2, 3, 4⟩]) ["z"] ∧
    XP.fileLoop (fun _ => some ⟨[0], 1, 1⟩) (fun _ _ => [⟨1, 2, 3, 4⟩]) [1] false []
        ("y" :: ["z"]) =
      scaleLoop ((fun (_ : PixelBuffer) (_ : ℚ) => [(⟨1, 2, 3, 4⟩ : MatchResult)])
        ⟨[0], 1, 1⟩) false [1] :=
  ⟨dispatcher_aggregation_per_variant.1 (fun _ => some ⟨[0], 1, 1⟩)
      (fun _ => [⟨1, 2, 3, 4⟩]) ["x"] ["z"] "y" (by decide),
   dispatcher_aggregation_per_variant.2 (fun _ => some ⟨[0], 1, 1⟩)
      (fun _ _ => [⟨1, 2, 3, 4⟩]) [1] "y" ⟨[0], 1, 1⟩ ["z"] (by decide) rfl (by decide)⟩

/-- C8 counterexample: in the baseline/AVX2 normalization an input scale
minimum of 1/20 (0.05) and step of 1/200 (0.005) are positive, hence kept
unchanged, and end below the claimed minimums 0.1 and 0.01. -/
theorem baseline_scale_clamp_below_minimums :
    (clampScaleParams (1 / 20) 1 (1 / 200)).1 < 1 / 10 ∧
    (clampScaleParams (1 / 20) 1 (1 / 200)).2.2 < 1 / 100 := by
  norm_num [clampScaleParams]

/-- C8 amended: every variant clamps the tolerance into [0, 255] and forces
scaleMax at least scaleMin; the XP variant additionally forces scaleMin at
least 0.1 and scaleStep at least 0.01, while the baseline and AVX2 variants
only replace nonpositive scaleMin/scaleStep by 0.1 (so their results are
merely positive, not bounded below by 0.1 and 0.01). -/
theorem clamp_params_amended (t : Int) (mn mx st : ℚ) :
    0 ≤ clampTolerance t ∧ clampTolerance t ≤ 255 ∧
    0 ≤ XP.Clamp t 0 255 ∧ XP.Clamp t 0 255 ≤ 255 ∧
    0 < (clampScaleParams mn mx st).1 ∧
    (clampScaleParams mn mx st).1 ≤ (clampScaleParams mn mx st).2.1 ∧
    0 < (clampScaleParams mn mx st).2.2 ∧
    1 / 10 ≤ (XP.clampScaleParams mn mx st).1 ∧
    (XP.clampScaleParams mn mx st).1 ≤ (XP.clampScaleParams mn mx st).2.1 ∧
    1 / 100 ≤ (XP.clampScaleParams mn mx st).2.2 := by
  have hb : clampScaleParams mn mx st =
      (if mn ≤ 0 then 1 / 10 else mn,
       if mx < (if mn ≤ 0 then 1 / 10 else mn) then (if mn ≤ 0 then 1 / 10 else mn) else mx,
       if st ≤ 0 then 1 / 10 else st) := rfl
  have hx : XP.clampScaleParams mn mx st =
      (max (1 / 10) mn, max (max (1 / 10) mn) mx, max (1 / 100) st) := rfl
  rw [hb, hx]
  dsimp only
  refine ⟨?_, ?_, ?_, ?_, ?_, ?_, ?_, ?_, ?_, ?_⟩
  · unfold clampTolerance
    omega
  · unfold clampTolerance
    omega
  · unfold XP.Clamp
    split_ifs <;> omega
  · unfold XP.Clamp
    split_ifs <;> omega
  · split_ifs with h
    · norm_num
    · exact lt_of_not_le h
  · split_ifs <;> linarith
  · split_ifs with h
    · norm_num
    · exact lt_of_not_le h
  · exact le_max_left _ _
  · exact le_max_left _ _
  · exact le_max_left _ _

/-- C9: when the clamped search rectangle is degenerate (left at least right,
or top at least bottom), the entry returns the code -9 InvalidSearchRegion
error string, and the result does not depend on the remainder of the function
— the screen capture, the image loads and the per-image searches are never
invoked. -/
theorem invalid_region_error_before_capture
    (screenWidth screenHeight iLeft iTop iRight iBottom : Int)
    (h : max 0 iLeft ≥ (if iRight ≤ 0 ∨ iRight > screenWidth then screenWidth else iRight) ∨
         max 0 iTop ≥ (if iBottom ≤ 0 ∨ iBottom > screenHeight then screenHeight else iBottom)) :
    ∀ rest rest2 : Int → Int → Int → Int → String,
      ImageSearchEntry screenWidth screenHeight iLeft iTop iRight iBottom rest =
        "\x7b-9\x7d[Invalid search region specified]" ∧
      ImageSearchEntry screenWidth screenHeight iLeft iTop iRight iBottom rest =
        ImageSearchEntry screenWidth screenHeight iLeft iTop iRight iBottom rest2 := by
  have he : ∀ r : Int → Int → Int → Int → String,
      ImageSearchEntry screenWidth screenHeight iLeft iTop iRight iBottom r =
        "\x7b-9\x7d[Invalid search region specified]" := by
    intro r
    rw [ImageSearchEntry, if_pos h]
    rfl
  intro rest rest2
  exact ⟨he rest, (he rest).trans (he rest2).symm⟩

/-- Witness for C9 at a concrete input: an empty rectangle (left 50, right 50)
on a 100 by 100 screen, with two different continuations. -/
theorem invalid_region_error_before_capture_witness :
    ImageSearchEntry 100 100 50 0 50 100 (fun _ _ _ _ => "captured") =
      "\x7b-9\x7d[Invalid search region specified]" ∧
    ImageSearchEntry 100 100 50 0 50 100 (fun _ _ _ _ => "captured") =
      ImageSearchEntry 100 100 50 0 50 100 (fun _ _ _ _ => "other") :=
  invalid_region_error_before_capture 100 100 50 0 50 100 (by decide)
    (fun _ _ _ _ => "captured") (fun _ _ _ _ => "other")

/-- C10: the baseline entry converts the transparency key with `rgb_to_bgr`
unconditionally, so the no-transparency sentinel 0xFFFFFFFF becomes
0x00FFFFFF; consequently, with `iTransparent` = CLR_NONE, a pure-white
reference pixel (0x00FFFFFF) equals the converted key and is skipped as
transparent — it matches any target pixel value at any tolerance — whereas
the AVX2 entry leaves the CLR_NONE sentinel unconverted. -/
theorem transparent_key_conversion_divergence :
    (∀ t : Nat, baselineTransparent t = rgb_to_bgr t) ∧
    baselineTransparent CLR_NONE = 0x00FFFFFF ∧
    avxTransparent CLR_NONE = CLR_NONE ∧
    (∀ screenPixel tol : Nat,
      CheckApproxMatch [screenPixel] 1 [0x00FFFFFF] 1 1 0 0
        (baselineTransparent CLR_NONE) tol = true) := by
  refine ⟨fun t => rfl, by decide, by decide, ?_⟩
  intro screenPixel tol
  have hk : baselineTransparent CLR_NONE = 0x00FFFFFF := by decide
  simp [CheckApproxMatch, hk, bufGet, List.range_succ]
